import Mathlib

/-!
Shallow embedding of `loco-gen/src/model.rs` (the model generator of the
`loco` repository): field-specification resolution, template rendering
orchestration and the optional downstream pipeline.  External collaborators
(the type-mapping table `get_mappings()`, the `rrgen` template engine, the
subprocess runner for the two pipeline steps and the ambient working
directory) are modelled as oracle parameters; the side effects of rendering
and of pipeline steps are recorded in an explicit action trace.
-/

namespace Loco


/-- The reserved field names skipped by the generator (`IGNORE_FIELDS` in
`loco-gen/src/model.rs`): creation/update timestamp fields under two
accepted spellings. -/
def IGNORE_FIELDS : List String := ["created_at", "updated_at", "create_at", "update_at"]

/-- The literal type token `ftype == "references"` dispatched on in `generate`. -/
def refTok : String := "references"

/-- The literal qualifier `"references:"` tested with `starts_with` in `generate`. -/
def refColon : String := "references:"

/-- Rust's `str::starts_with`, embedded as a character-list prefix test
(equivalent to the byte-prefix test on valid UTF-8 when the pattern is a
whole string). -/
def rustStartsWith (s p : String) : Bool := p.data.isPrefixOf s.data

/-- The external type-mapping table (`get_mappings()` in `loco-gen`):
a read-only registry from type token to schema type (`schema_field`),
plus the ordered list of valid tokens (`schema_fields`) used for the
`TypeNotFound` diagnostic. -/
structure Mappings where
  schema_field : String → Option String
  schema_fields : List String

/-- The generator error type: every failure in `model.rs` is surfaced as an
`Error::Message(String)` (lookup failures and pipeline failures are built
with `format!`; render errors and `current_dir` errors are converted and
propagated, modelled here by letting the oracles produce `Error` directly). -/
inductive Error where
  | Message : String → Error
deriving DecidableEq

/-- Rust `{:?}` rendering of a list of string tokens, as interpolated into
the `TypeNotFound` diagnostic. -/
def debugList (xs : List String) : String :=
  "[" ++ String.intercalate ", " (xs.map (fun s => "\"" ++ s ++ "\"")) ++ "]"

/-- The `TypeNotFound` diagnostic of `generate`:
`format!("type: {} not found. try any of: {:?}", ftype, mappings.schema_fields())`. -/
def typeNotFoundMsg (ftype : String) (valid : List String) : String :=
  "type: " ++ ftype ++ " not found. try any of: " ++ debugList valid

/-- The field-resolution loop of `generate` (`for (fname, ftype) in fields`):
returns the pushed `columns` and `references` vectors in declaration order,
together with the list of field names for which the redundant-field warning
was logged (`tracing::warn!`).  The `?` on the failed lookup aborts the whole
loop, which the recursion mirrors by propagating the first `Error`. -/
def resolveFields (m : Mappings) : List (String × String) →
    Except Error (List (String × String) × List (String × String) × List String)
  | [] => Except.ok ([], [], [])
  | (fname, ftype) :: rest =>
    if fname ∈ IGNORE_FIELDS then
      match resolveFields m rest with
      | Except.error e => Except.error e
      | Except.ok (cols, refs, warns) => Except.ok (cols, refs, fname :: warns)
    else if ftype = refTok then
      let fkey := fname ++ "_id"
      match resolveFields m rest with
      | Except.error e => Except.error e
      | Except.ok (cols, refs, warns) =>
          Except.ok ((fkey, "integer") :: cols, (fname, fkey) :: refs, warns)
    else if rustStartsWith ftype refColon then
      let fkey := fname ++ "_id"
      match resolveFields m rest with
      | Except.error e => Except.error e
      | Except.ok (cols, refs, warns) =>
          Except.ok ((fkey, "integer") :: cols, (ftype.drop refColon.length, fkey) :: refs, warns)
    else
      match m.schema_field ftype with
      | none => Except.error (Error.Message (typeNotFoundMsg ftype m.schema_fields))
      | some schema_type =>
        match resolveFields m rest with
        | Except.error e => Except.error e
        | Except.ok (cols, refs, warns) =>
            Except.ok ((fname, schema_type) :: cols, refs, warns)

/-- `AppInfo` of `loco-gen`: carries the application package name. -/
structure AppInfo where
  app_name : String

/-- The two templates rendered by `generate`: `MODEL_T` and `MODEL_TEST_T`. -/
inductive Template where
  | model
  | model_test
deriving DecidableEq

/-- The two downstream pipeline steps run by `generate` when
`migration_only` is false: `cargo loco-tool db migrate` and
`cargo loco-tool db entities`. -/
inductive Step where
  | migrate
  | entities
deriving DecidableEq

/-- One externally visible side-effecting operation of `generate`, recorded
in the trace: a template render or a pipeline step invocation. -/
inductive Action where
  | render : Template → Action
  | run : Step → Action
deriving DecidableEq

/-- The variable bag built by `generate`
(`json!({"name": .., "ts": .., "pkg_name": .., "is_link": .., "columns": .., "references": ..})`). -/
structure GenContext where
  name : String
  ts : String
  pkg_name : String
  is_link : Bool
  columns : List (String × String)
  references : List (String × String)
deriving DecidableEq

/-- Outcome of one successful template render, as consumed by the message
aggregator: its human-readable message. -/
structure GenResult where
  message : String
deriving DecidableEq

/-- Oracle for the external `rrgen` template engine: the outcome of
rendering a given template against a given variable bag. -/
structure Rrgen where
  generate : Template → GenContext → Except Error GenResult

/-- Oracle for the process environment of the pipeline: the result of
`current_dir()` and the result of running each pipeline step as a blocking
subprocess (`Except.error` carries the displayed `duct` error). -/
structure PipelineEnv where
  current_dir : Except Error String
  run : Step → Except String Unit

/-- The pipeline diagnostic
`format!("failed to run loco db migration. error details: `{err}`")`. -/
def migrateErrMsg (err : String) : String :=
  "failed to run loco db migration. error details: `" ++ err ++ "`"

/-- The pipeline diagnostic
`format!("failed to run loco db entities. error details: `{err}`")`. -/
def entitiesErrMsg (err : String) : String :=
  "failed to run loco db entities. error details: `" ++ err ++ "`"

/-- Modelled from the spec: `collect_messages` of `loco-gen` is not under
`src/`; per the Message Aggregator contract it concatenates the rendering
outcomes' messages, in invocation order, into a single newline-joined
report string. -/
def collect_messages (results : List GenResult) : String :=
  String.intercalate "\n" (results.map GenResult.message)

/-- The `json!` variable bag of `generate`, assembled from the entity
metadata and the two resolved lists. -/
def mkVars (nm : String) (il : Bool) (ai : AppInfo) (ts : String)
    (columns references : List (String × String)) : GenContext :=
  { name := nm, ts := ts, pkg_name := ai.app_name, is_link := il,
    columns := columns, references := references }

/-- The `generate` function of `loco-gen/src/model.rs`, embedded with
explicit oracles for its collaborators and an action trace for its side
effects.  `ts` stands for the wall-clock `Utc::now()` value.  Returns the
function's `Result` paired with the ordered list of renders and pipeline
steps that were actually invoked. -/
def generate (rrgen : Rrgen) (pipeline : PipelineEnv) (name : String) (is_link : Bool)
    (migration_only : Bool) (fields : List (String × String)) (appinfo : AppInfo)
    (m : Mappings) (ts : String) : Except Error String × List Action :=
  match resolveFields m fields with
  | Except.error e => (Except.error e, [])
  | Except.ok (columns, references, _warns) =>
    let vars : GenContext := mkVars name is_link appinfo ts columns references
    match rrgen.generate Template.model vars with
    | Except.error e => (Except.error e, [Action.render Template.model])
    | Except.ok res1 =>
      match rrgen.generate Template.model_test vars with
      | Except.error e =>
          (Except.error e, [Action.render Template.model, Action.render Template.model_test])
      | Except.ok res2 =>
        let rendered := [Action.render Template.model, Action.render Template.model_test]
        if migration_only then
          (Except.ok (collect_messages [res1, res2]), rendered)
        else
          match pipeline.current_dir with
          | Except.error e => (Except.error e, rendered)
          | Except.ok _cwd =>
            match pipeline.run Step.migrate with
            | Except.error err =>
                (Except.error (Error.Message (migrateErrMsg err)),
                  rendered ++ [Action.run Step.migrate])
            | Except.ok _ =>
              match pipeline.run Step.entities with
              | Except.error err =>
                  (Except.error (Error.Message (entitiesErrMsg err)),
                    rendered ++ [Action.run Step.migrate, Action.run Step.entities])
              | Except.ok _ =>
                  (Except.ok (collect_messages [res1, res2]),
                    rendered ++ [Action.run Step.migrate, Action.run Step.entities])

/-- Concrete mapping table with no entries at all, used by witnesses. -/
def mapsNone : Mappings :=
  { schema_field := fun _ => none, schema_fields := [] }

/-- Concrete mapping table knowing only the token `"string"`, used by witnesses. -/
def mapsString : Mappings :=
  { schema_field := fun t => if t = "string" then some "string" else none,
    schema_fields := ["string"] }

deriving instance DecidableEq for Except

/-- A field token the resolution loop handles without failing: ignored,
one of the two reference forms, or present in the mapping table. -/
def tokenOk (m : Mappings) (f : String × String) : Prop :=
  f.1 ∈ IGNORE_FIELDS ∨ f.2 = refTok ∨ rustStartsWith f.2 refColon = true ∨
    (m.schema_field f.2).isSome = true

instance (m : Mappings) (f : String × String) : Decidable (tokenOk m f) := by
  unfold tokenOk; infer_instance

/-- Concrete renderer whose two templates always succeed, used by witnesses. -/
def rrOkAB : Rrgen :=
  { generate := fun t _ =>
      match t with
      | Template.model => Except.ok { message := "model written" }
      | Template.model_test => Except.ok { message := "test written" } }

/-- Concrete renderer that always fails, used by witnesses. -/
def rrFail : Rrgen :=
  { generate := fun _ _ => Except.error (Error.Message "render failed") }

/-- Concrete pipeline environment whose steps all succeed, used by witnesses. -/
def peOk : PipelineEnv :=
  { current_dir := Except.ok "/app", run := fun _ => Except.ok () }

/-- Concrete pipeline environment whose steps all fail, used by witnesses. -/
def peDead : PipelineEnv :=
  { current_dir := Except.ok "/app", run := fun _ => Except.error "dead" }

/-- Concrete pipeline environment where the migrate step fails and the
entities step would succeed, used by witnesses. -/
def peFailMigrate : PipelineEnv :=
  { current_dir := Except.ok "/app",
    run := fun s =>
      match s with
      | Step.migrate => Except.error "boom"
      | Step.entities => Except.ok () }

/-- Concrete application info, used by witnesses. -/
def appSaas : AppInfo := { app_name := "saas" }

/-- Result of a resolution is a success, as a Boolean observation. -/
def isOkResult {α : Type} (r : Except Error α) : Bool :=
  match r with
  | Except.ok _ => true
  | Except.error _ => false

/-- Spec-side description (from the spec's words, for the ordering claim):
the column contributed by one field token, independent of the rest of the
list — ignored tokens contribute none, reference forms contribute the
synthesized `<name>_id` integer column, scalar tokens contribute their
mapped column. -/
def specColumnOf (m : Mappings) (f : String × String) : Option (String × String) :=
  if f.1 ∈ IGNORE_FIELDS then none
  else if f.2 = refTok then some (f.1 ++ "_id", "integer")
  else if rustStartsWith f.2 refColon then some (f.1 ++ "_id", "integer")
  else (m.schema_field f.2).map (fun t => (f.1, t))

/-- Spec-side description (from the spec's words, for the ordering claim):
the reference contributed by one field token — only the two reference forms
contribute one. -/
def specReferenceOf (f : String × String) : Option (String × String) :=
  if f.1 ∈ IGNORE_FIELDS then none
  else if f.2 = refTok then some (f.1, f.1 ++ "_id")
  else if rustStartsWith f.2 refColon then some (f.2.drop refColon.length, f.1 ++ "_id")
  else none

/-- One output column is compatible with the ignore rule: its name is not a
reserved ignored name, unless it is the synthesized foreign-key column of
some produced reference. -/
def columnRespectsIgnore (refs : List (String × String)) (c : String × String) : Bool :=
  !(IGNORE_FIELDS.contains c.1) || refs.any (fun r => r.2 == c.1)

/-- Whether an action of the trace is a pipeline step (as opposed to a
template render). -/
def isStep : Action → Bool
  | Action.run _ => true
  | Action.render _ => false

/-- The pipeline steps contained in a trace. -/
def stepsOf (tr : List Action) : List Action := tr.filter isStep

/- Helper lemmas about the two reference literals. -/

theorem refColon_append_ne_refTok (tgt : String) : refColon ++ tgt ≠ refTok := by
  intro h
  have h2 : (refColon ++ tgt).length = refTok.length := congrArg String.length h
  rw [String.length_append] at h2
  have e1 : refColon.length = 11 := rfl
  have e2 : refTok.length = 10 := rfl
  omega

theorem rustStartsWith_refColon_append (tgt : String) :
    rustStartsWith (refColon ++ tgt) refColon = true := by
  simp [rustStartsWith, String.data_append]

theorem drop_refColon_append (tgt : String) :
    (refColon ++ tgt).drop refColon.length = tgt := by
  rw [String.drop_eq, String.data_append]
  rw [List.drop_left' (show refColon.data.length = refColon.length from rfl)]

/-- Claim C1: a field token whose raw type is exactly `"references"` or of the
form `"references:<Target>"` (name not ignored) contributes exactly one
column `<name>_id` of schema type `"integer"` and exactly one reference whose
foreign-key column is `<name>_id`; the target entity is the field name in the
unqualified form and `<Target>` in the qualified form. -/
theorem references_resolution (m : Mappings) (fname tgt : String)
    (rest cols refs : List (String × String)) (warns : List String)
    (hn : fname ∉ IGNORE_FIELDS)
    (hrest : resolveFields m rest = Except.ok (cols, refs, warns)) :
    resolveFields m ((fname, refTok) :: rest) =
      Except.ok ((fname ++ "_id", "integer") :: cols, (fname, fname ++ "_id") :: refs, warns) ∧
    resolveFields m ((fname, refColon ++ tgt) :: rest) =
      Except.ok ((fname ++ "_id", "integer") :: cols, (tgt, fname ++ "_id") :: refs, warns) := by
  constructor
  · simp [resolveFields, hn, hrest]
  · simp [resolveFields, hn, hrest, refColon_append_ne_refTok tgt,
      rustStartsWith_refColon_append tgt, drop_refColon_append tgt]

/-- Witness for C1 at `("user", "references")` and `("author", "references:people")`. -/
theorem references_resolution_witness :
    resolveFields mapsNone [("user", refTok)] =
      Except.ok ([("user" ++ "_id", "integer")], [("user", "user" ++ "_id")], []) ∧
    resolveFields mapsNone [("author", refColon ++ "people")] =
      Except.ok ([("author" ++ "_id", "integer")], [("people", "author" ++ "_id")], []) :=
  ⟨(references_resolution mapsNone "user" "people" [] [] [] [] (by decide) rfl).1,
   (references_resolution mapsNone "author" "people" [] [] [] [] (by decide) rfl).2⟩

/-- Claim C3: a field token whose name is in the ignore set (exactly
`created_at`, `updated_at`, `create_at` or `update_at`) produces neither a
column nor a reference, only a warning, and resolution still succeeds; in
particular `[("created_at", "string")]` resolves to zero columns and zero
references with one warning. -/
theorem ignored_fields_skipped (m : Mappings) (fname ftype : String)
    (rest cols refs : List (String × String)) (warns : List String)
    (h : fname ∈ IGNORE_FIELDS)
    (hrest : resolveFields m rest = Except.ok (cols, refs, warns)) :
    resolveFields m ((fname, ftype) :: rest) = Except.ok (cols, refs, fname :: warns) ∧
    resolveFields m [("created_at", "string")] = Except.ok ([], [], ["created_at"]) := by
  constructor
  · simp [resolveFields, h, hrest]
  · simp [resolveFields, IGNORE_FIELDS]

/-- Witness for C3 at `("created_at", "string")`. -/
theorem ignored_fields_skipped_witness :
    resolveFields mapsString [("created_at", "string")] =
      Except.ok ([], [], ["created_at"]) :=
  (ignored_fields_skipped mapsString "created_at" "string" [] [] [] [] (by decide) rfl).1

/-- Claim C9: the raw type `"references:"` (empty target) does not fail: it is
treated as a qualified reference, yielding the column `<name>_id` of type
`"integer"` and a reference whose target entity is the empty string. -/
theorem empty_target_reference (m : Mappings) (fname : String)
    (rest cols refs : List (String × String)) (warns : List String)
    (hn : fname ∉ IGNORE_FIELDS)
    (hrest : resolveFields m rest = Except.ok (cols, refs, warns)) :
    resolveFields m ((fname, refColon) :: rest) =
      Except.ok ((fname ++ "_id", "integer") :: cols, ("", fname ++ "_id") :: refs, warns) := by
  have h1 : refColon ≠ refTok := by decide
  have h2 : rustStartsWith refColon refColon = true := by decide
  have h3 : refColon.drop refColon.length = "" := rfl
  simp [resolveFields, hn, hrest, h1, h2, h3]

/-- Witness for C9 at `("x", "references:")`. -/
theorem empty_target_reference_witness :
    resolveFields mapsNone [("x", refColon)] =
      Except.ok ([("x" ++ "_id", "integer")], [("", "x" ++ "_id")], []) :=
  empty_target_reference mapsNone "x" [] [] [] [] (by decide) rfl

/-- Claim C2: a field list containing a token that is neither ignored, nor a
reference form, nor present in the mapping table makes resolution fail with
the `TypeNotFound` diagnostic carrying the offending token and the full valid
token list; the whole generation returns that error with an empty action
trace, so no column list, reference list or rendered artifact is produced
(all-or-nothing, fail-fast at the first unknown type). -/
theorem unknown_type_fails (m : Mappings) (pre rest : List (String × String))
    (fname ftype : String) (rr : Rrgen) (pe : PipelineEnv) (nm : String)
    (il mo : Bool) (ai : AppInfo) (ts : String)
    (hpre : ∀ f ∈ pre, tokenOk m f)
    (h1 : fname ∉ IGNORE_FIELDS) (h2 : ftype ≠ refTok)
    (h3 : rustStartsWith ftype refColon = false)
    (h4 : m.schema_field ftype = none) :
    resolveFields m (pre ++ (fname, ftype) :: rest) =
      Except.error (Error.Message (typeNotFoundMsg ftype m.schema_fields)) ∧
    generate rr pe nm il mo (pre ++ (fname, ftype) :: rest) ai m ts =
      (Except.error (Error.Message (typeNotFoundMsg ftype m.schema_fields)), []) := by
  have hres : resolveFields m (pre ++ (fname, ftype) :: rest) =
      Except.error (Error.Message (typeNotFoundMsg ftype m.schema_fields)) := by
    induction pre with
    | nil => simp [resolveFields, h1, h2, h3, h4]
    | cons f pre ih =>
      have hf : tokenOk m f := hpre f (by simp)
      have hih := ih (fun g hg => hpre g (by simp [hg]))
      obtain ⟨a, b⟩ := f
      by_cases hig : a ∈ IGNORE_FIELDS
      · simp [resolveFields, hig, hih]
      · by_cases hrt : b = refTok
        · simp [resolveFields, hig, hrt, hih]
        · by_cases hsw : rustStartsWith b refColon
          · simp [resolveFields, hig, hrt, hsw, hih]
          · rcases hf with hc | hc | hc | hc
            · exact absurd hc hig
            · exact absurd hc hrt
            · exact absurd hc (by simpa using hsw)
            · obtain ⟨t, ht⟩ := Option.isSome_iff_exists.mp hc
              simp [resolveFields, hig, hrt, hsw, ht, hih]
  exact ⟨hres, by simp [generate, hres]⟩

/-- Witness for C2 at fields `[("title", "string"), ("bogus", "blah")]`
against the table knowing only `"string"`. -/
theorem unknown_type_fails_witness :
    resolveFields mapsString ([("title", "string")] ++ [("bogus", "blah")]) =
      Except.error (Error.Message (typeNotFoundMsg "blah" mapsString.schema_fields)) ∧
    generate rrOkAB peOk "movies" false true ([("title", "string")] ++ [("bogus", "blah")])
        appSaas mapsString "TS" =
      (Except.error (Error.Message (typeNotFoundMsg "blah" mapsString.schema_fields)), []) :=
  unknown_type_fails mapsString [("title", "string")] [] "bogus" "blah" rrOkAB peOk
    "movies" false true appSaas "TS" (by decide) (by decide) (by decide) (by decide) (by decide)

/-- Claim C10: reference-form tokens never consult the type-mapping table:
a field list made only of ignored tokens and reference forms resolves to the
same successful result under any two tables, in particular under the empty
table. -/
theorem references_skip_table (m m' : Mappings) (fields : List (String × String))
    (h : ∀ f ∈ fields, f.1 ∈ IGNORE_FIELDS ∨ f.2 = refTok ∨
      rustStartsWith f.2 refColon = true) :
    resolveFields m fields = resolveFields m' fields ∧
    isOkResult (resolveFields m fields) = true := by
  induction fields with
  | nil => simp [resolveFields, isOkResult]
  | cons f rest ih =>
    have hf := h f (by simp)
    obtain ⟨hEq, hOk⟩ := ih (fun g hg => h g (by simp [hg]))
    cases hres : resolveFields m rest with
    | error e => rw [hres] at hOk; simp [isOkResult] at hOk
    | ok out =>
      obtain ⟨cols, refs, warns⟩ := out
      have hres' : resolveFields m' rest = Except.ok (cols, refs, warns) := by
        rw [← hEq, hres]
      obtain ⟨a, b⟩ := f
      by_cases hig : a ∈ IGNORE_FIELDS
      · simp [resolveFields, hig, hres, hres', isOkResult]
      · by_cases hrt : b = refTok
        · simp [resolveFields, hig, hrt, hres, hres', isOkResult]
        · have hsw : rustStartsWith b refColon = true := by
            rcases hf with hc | hc | hc
            · exact absurd hc hig
            · exact absurd hc hrt
            · exact hc
          simp [resolveFields, hig, hrt, hsw, hres, hres', isOkResult]

/-- Claim C4: on every successful resolution, the output column list and the
output reference list are exactly the per-token contributions in input
declaration order after removing ignored fields (resolution is append-only
and order-preserving). -/
theorem resolution_preserves_order (m : Mappings) (fields cols refs : List (String × String))
    (warns : List String)
    (hres : resolveFields m fields = Except.ok (cols, refs, warns)) :
    cols = fields.filterMap (specColumnOf m) ∧
    refs = fields.filterMap (specReferenceOf) := by
  induction fields generalizing cols refs warns with
  | nil =>
    simp [resolveFields] at hres
    simp [hres.1, hres.2.1]
  | cons f rest ih =>
    obtain ⟨a, b⟩ := f
    by_cases hig : a ∈ IGNORE_FIELDS
    · cases hr : resolveFields m rest with
      | error e => rw [resolveFields, if_pos hig, hr] at hres; cases hres
      | ok out =>
        obtain ⟨cols0, refs0, warns0⟩ := out
        rw [resolveFields, if_pos hig, hr] at hres
        obtain ⟨e1, e2, e3⟩ := by simpa using hres
        obtain ⟨hc, hf⟩ := ih cols0 refs0 warns0 hr
        simp [specColumnOf, specReferenceOf, hig, ← e1, ← e2, hc, hf]
    · by_cases hrt : b = refTok
      · cases hr : resolveFields m rest with
        | error e => rw [resolveFields, if_neg hig, if_pos hrt, hr] at hres; cases hres
        | ok out =>
          obtain ⟨cols0, refs0, warns0⟩ := out
          rw [resolveFields, if_neg hig, if_pos hrt, hr] at hres
          obtain ⟨e1, e2, e3⟩ := by simpa using hres
          obtain ⟨hc, hf⟩ := ih cols0 refs0 warns0 hr
          simp [specColumnOf, specReferenceOf, hig, hrt, ← e1, ← e2, hc, hf]
      · by_cases hsw : rustStartsWith b refColon
        · cases hr : resolveFields m rest with
          | error e =>
            rw [resolveFields, if_neg hig, if_neg hrt, if_pos hsw, hr] at hres; cases hres
          | ok out =>
            obtain ⟨cols0, refs0, warns0⟩ := out
            rw [resolveFields, if_neg hig, if_neg hrt, if_pos hsw, hr] at hres
            obtain ⟨e1, e2, e3⟩ := by simpa using hres
            obtain ⟨hc, hf⟩ := ih cols0 refs0 warns0 hr
            simp [specColumnOf, specReferenceOf, hig, hrt, hsw, ← e1, ← e2, hc, hf]
        · cases hmap : m.schema_field b with
          | none =>
            rw [resolveFields, if_neg hig, if_neg hrt, if_neg (by simpa using hsw), hmap] at hres
            cases hres
          | some t =>
            cases hr : resolveFields m rest with
            | error e =>
              rw [resolveFields, if_neg hig, if_neg hrt, if_neg (by simpa using hsw),
                hmap, hr] at hres
              cases hres
            | ok out =>
              obtain ⟨cols0, refs0, warns0⟩ := out
              rw [resolveFields, if_neg hig, if_neg hrt, if_neg (by simpa using hsw),
                hmap, hr] at hres
              obtain ⟨e1, e2, e3⟩ := by simpa using hres
              obtain ⟨hc, hf⟩ := ih cols0 refs0 warns0 hr
              simp [specColumnOf, specReferenceOf, hig, hrt, hsw, hmap, ← e1, ← e2, hc, hf]

/-- Witness for C4 on a mixed field list (scalar, reference, ignored,
qualified reference). -/
theorem resolution_preserves_order_witness :
    [("title", "string"), ("user" ++ "_id", "integer"), ("author" ++ "_id", "integer")] =
      List.filterMap (specColumnOf mapsString)
        [("title", "string"), ("user", "references"), ("created_at", "string"),
         ("author", "references:people")] ∧
    [("user", "user" ++ "_id"), ("people", "author" ++ "_id")] =
      List.filterMap (specReferenceOf)
        [("title", "string"), ("user", "references"), ("created_at", "string"),
         ("author", "references:people")] :=
  resolution_preserves_order mapsString
    [("title", "string"), ("user", "references"), ("created_at", "string"),
     ("author", "references:people")]
    [("title", "string"), ("user" ++ "_id", "integer"), ("author" ++ "_id", "integer")]
    [("user", "user" ++ "_id"), ("people", "author" ++ "_id")]
    ["created_at"] (by decide)

/-- On every successful resolution, every output column whose name is in the
ignore set is the foreign-key column of some produced reference (auxiliary
to the ignore-set invariant). -/
theorem resolve_cols_ignore_aux (m : Mappings) (fields cols refs : List (String × String))
    (warns : List String)
    (hres : resolveFields m fields = Except.ok (cols, refs, warns)) :
    ∀ c ∈ cols, c.1 ∈ IGNORE_FIELDS → ∃ r ∈ refs, r.2 = c.1 := by
  induction fields generalizing cols refs warns with
  | nil =>
    simp [resolveFields] at hres
    simp [hres.1]
  | cons f rest ih =>
    obtain ⟨a, b⟩ := f
    by_cases hig : a ∈ IGNORE_FIELDS
    · cases hr : resolveFields m rest with
      | error e => rw [resolveFields, if_pos hig, hr] at hres; cases hres
      | ok out =>
        obtain ⟨cols0, refs0, warns0⟩ := out
        rw [resolveFields, if_pos hig, hr] at hres
        obtain ⟨e1, e2, e3⟩ := by simpa using hres
        rw [← e1, ← e2]
        exact ih cols0 refs0 warns0 hr
    · by_cases hrt : b = refTok
      · cases hr : resolveFields m rest with
        | error e => rw [resolveFields, if_neg hig, if_pos hrt, hr] at hres; cases hres
        | ok out =>
          obtain ⟨cols0, refs0, warns0⟩ := out
          rw [resolveFields, if_neg hig, if_pos hrt, hr] at hres
          obtain ⟨e1, e2, e3⟩ := by simpa using hres
          rw [← e1, ← e2]
          intro c hc hcig
          rcases List.mem_cons.mp hc with hhead | htail
          · exact ⟨(a, a ++ "_id"), by simp [hhead]⟩
          · obtain ⟨r, hrmem, hr2⟩ := ih cols0 refs0 warns0 hr c htail hcig
            exact ⟨r, List.mem_cons_of_mem _ hrmem, hr2⟩
      · by_cases hsw : rustStartsWith b refColon
        · cases hr : resolveFields m rest with
          | error e =>
            rw [resolveFields, if_neg hig, if_neg hrt, if_pos hsw, hr] at hres; cases hres
          | ok out =>
            obtain ⟨cols0, refs0, warns0⟩ := out
            rw [resolveFields, if_neg hig, if_neg hrt, if_pos hsw, hr] at hres
            obtain ⟨e1, e2, e3⟩ := by simpa using hres
            rw [← e1, ← e2]
            intro c hc hcig
            rcases List.mem_cons.mp hc with hhead | htail
            · exact ⟨(b.drop refColon.length, a ++ "_id"), by simp [hhead]⟩
            · obtain ⟨r, hrmem, hr2⟩ := ih cols0 refs0 warns0 hr c htail hcig
              exact ⟨r, List.mem_cons_of_mem _ hrmem, hr2⟩
        · cases hmap : m.schema_field b with
          | none =>
            rw [resolveFields, if_neg hig, if_neg hrt, if_neg (by simpa using hsw), hmap] at hres
            cases hres
          | some t =>
            cases hr : resolveFields m rest with
            | error e =>
              rw [resolveFields, if_neg hig, if_neg hrt, if_neg (by simpa using hsw),
                hmap, hr] at hres
              cases hres
            | ok out =>
              obtain ⟨cols0, refs0, warns0⟩ := out
              rw [resolveFields, if_neg hig, if_neg hrt, if_neg (by simpa using hsw),
                hmap, hr] at hres
              obtain ⟨e1, e2, e3⟩ := by simpa using hres
              rw [← e1, ← e2]
              intro c hc hcig
              rcases List.mem_cons.mp hc with hhead | htail
              · rw [hhead] at hcig; exact absurd hcig hig
              · exact ih cols0 refs0 warns0 hr c htail hcig

/-- Claim C8: on every successful resolution, no output column name other
than a synthesized foreign-key column (one appearing as the foreign-key
column of a produced reference) is a member of the ignore set. -/
theorem no_ignored_column_names (m : Mappings) (fields cols refs : List (String × String))
    (warns : List String)
    (hres : resolveFields m fields = Except.ok (cols, refs, warns)) :
    cols.all (columnRespectsIgnore refs) = true := by
  rw [List.all_eq_true]
  intro c hc
  by_cases hig : c.1 ∈ IGNORE_FIELDS
  · obtain ⟨r, hrmem, hr2⟩ := resolve_cols_ignore_aux m fields cols refs warns hres c hc hig
    have hany : refs.any (fun r => r.2 == c.1) = true := by
      rw [List.any_eq_true]
      exact ⟨r, hrmem, by simp [hr2]⟩
    simp [columnRespectsIgnore, hany]
  · have hcon : IGNORE_FIELDS.contains c.1 = false := by
      simpa using hig
    simp [columnRespectsIgnore, hcon]
    exact Or.inl hig

/-- Witness for C8 on a mixed field list. -/
theorem no_ignored_column_names_witness :
    List.all [("title", "string"), ("user" ++ "_id", "integer")]
      (columnRespectsIgnore [("user", "user" ++ "_id")]) = true :=
  no_ignored_column_names mapsString
    [("title", "string"), ("user", "references"), ("updated_at", "text")]
    [("title", "string"), ("user" ++ "_id", "integer")]
    [("user", "user" ++ "_id")] ["updated_at"] (by decide)

/-- Witness for C10: references and an ignored token resolve identically
under the empty table and the `"string"` table. -/
theorem references_skip_table_witness :
    resolveFields mapsNone
        [("user", "references"), ("author", "references:people"), ("created_at", "string")] =
      resolveFields mapsString
        [("user", "references"), ("author", "references:people"), ("created_at", "string")] ∧
    isOkResult (resolveFields mapsNone
        [("user", "references"), ("author", "references:people"), ("created_at", "string")]) = true :=
  references_skip_table mapsNone mapsString
    [("user", "references"), ("author", "references:people"), ("created_at", "string")]
    (by decide)

/-- Claim C5: with `migration_only` set, no pipeline step is ever invoked —
for arbitrary collaborators, including ones whose steps would fail, the trace
contains no step — and when both renders succeed, the returned message is
exactly the rendering-only aggregate of the two template outcomes. -/
theorem migration_only_skips_pipeline
    (rr rrA : Rrgen) (pe peA : PipelineEnv) (nm nmA : String) (il ilA : Bool)
    (fields fieldsA : List (String × String)) (ai aiA : AppInfo) (m mA : Mappings)
    (ts tsA : String) (cols refs : List (String × String)) (warns : List String)
    (r1 r2 : GenResult)
    (hres : resolveFields m fields = Except.ok (cols, refs, warns))
    (h1 : rr.generate Template.model (mkVars nm il ai ts cols refs) = Except.ok r1)
    (h2 : rr.generate Template.model_test (mkVars nm il ai ts cols refs) = Except.ok r2) :
    stepsOf (generate rrA peA nmA ilA true fieldsA aiA mA tsA).2 = [] ∧
    generate rr pe nm il true fields ai m ts =
      (Except.ok (collect_messages [r1, r2]),
       [Action.render Template.model, Action.render Template.model_test]) := by
  constructor
  · cases hra : resolveFields mA fieldsA with
    | error e => simp [generate, hra, stepsOf]
    | ok out =>
      obtain ⟨c0, f0, w0⟩ := out
      cases hb : rrA.generate Template.model (mkVars nmA ilA aiA tsA c0 f0) with
      | error e => simp [generate, hra, hb, stepsOf, isStep]
      | ok g1 =>
        cases hc : rrA.generate Template.model_test (mkVars nmA ilA aiA tsA c0 f0) with
        | error e => simp [generate, hra, hb, hc, stepsOf, isStep]
        | ok g2 => simp [generate, hra, hb, hc, stepsOf, isStep]
  · simp [generate, hres, h1, h2]

/-- Witness for C5 with a pipeline environment whose steps all fail. -/
theorem migration_only_skips_pipeline_witness :
    stepsOf (generate rrOkAB peDead "movies" false true [("title", "string")]
      appSaas mapsString "TS").2 = [] ∧
    generate rrOkAB peDead "movies" false true [("title", "string")] appSaas mapsString "TS" =
      (Except.ok (collect_messages
        [{ message := "model written" }, { message := "test written" }]),
       [Action.render Template.model, Action.render Template.model_test]) :=
  migration_only_skips_pipeline rrOkAB rrOkAB peDead peDead "movies" "movies" false false
    [("title", "string")] [("title", "string")] appSaas appSaas mapsString mapsString "TS" "TS"
    [("title", "string")] [] [] { message := "model written" } { message := "test written" }
    (by decide) rfl rfl

/-- Claim C6: with the pipeline enabled, the steps run in the fixed order
migrate-then-entities; if migrate fails the entities step never starts, the
generation aborts with an error naming the failed step and its details, and
the already-rendered artifacts stay in the trace (no rollback); if migrate
succeeds and entities fails, same with the entities diagnostic; if both
succeed the trace is exactly render, render, migrate, entities. -/
theorem pipeline_fail_fast
    (rr : Rrgen) (pe : PipelineEnv) (nm : String) (il : Bool)
    (fields : List (String × String)) (ai : AppInfo) (m : Mappings)
    (ts cwd err : String) (cols refs : List (String × String)) (warns : List String)
    (r1 r2 : GenResult)
    (hres : resolveFields m fields = Except.ok (cols, refs, warns))
    (h1 : rr.generate Template.model (mkVars nm il ai ts cols refs) = Except.ok r1)
    (h2 : rr.generate Template.model_test (mkVars nm il ai ts cols refs) = Except.ok r2)
    (hcwd : pe.current_dir = Except.ok cwd) :
    (pe.run Step.migrate = Except.error err →
      generate rr pe nm il false fields ai m ts =
        (Except.error (Error.Message (migrateErrMsg err)),
         [Action.render Template.model, Action.render Template.model_test,
          Action.run Step.migrate])) ∧
    (pe.run Step.migrate = Except.ok () → pe.run Step.entities = Except.error err →
      generate rr pe nm il false fields ai m ts =
        (Except.error (Error.Message (entitiesErrMsg err)),
         [Action.render Template.model, Action.render Template.model_test,
          Action.run Step.migrate, Action.run Step.entities])) ∧
    (pe.run Step.migrate = Except.ok () → pe.run Step.entities = Except.ok () →
      generate rr pe nm il false fields ai m ts =
        (Except.ok (collect_messages [r1, r2]),
         [Action.render Template.model, Action.render Template.model_test,
          Action.run Step.migrate, Action.run Step.entities])) := by
  refine ⟨fun hm => ?_, fun hm he => ?_, fun hm he => ?_⟩
  · simp [generate, hres, h1, h2, hcwd, hm]
  · simp [generate, hres, h1, h2, hcwd, hm, he]
  · simp [generate, hres, h1, h2, hcwd, hm, he]

/-- Witness for C6 with a failing migrate step. -/
theorem pipeline_fail_fast_witness :
    generate rrOkAB peFailMigrate "movies" false false [("title", "string")]
        appSaas mapsString "TS" =
      (Except.error (Error.Message (migrateErrMsg "boom")),
       [Action.render Template.model, Action.render Template.model_test,
        Action.run Step.migrate]) :=
  (pipeline_fail_fast rrOkAB peFailMigrate "movies" false [("title", "string")] appSaas
    mapsString "TS" "/app" "boom" [("title", "string")] [] []
    { message := "model written" } { message := "test written" }
    (by decide) rfl rfl rfl).1 rfl

/-- Claim C7: if rendering the schema-definition template or the
test-scaffold template fails, generation aborts with that render error
surfaced verbatim and no pipeline step ever starts, whatever the
`migration_only` flag. -/
theorem render_failure_blocks_pipeline
    (rr : Rrgen) (pe : PipelineEnv) (nm : String) (il mo : Bool)
    (fields : List (String × String)) (ai : AppInfo) (m : Mappings) (ts : String)
    (cols refs : List (String × String)) (warns : List String) (e : Error) (r1 : GenResult)
    (hres : resolveFields m fields = Except.ok (cols, refs, warns)) :
    (rr.generate Template.model (mkVars nm il ai ts cols refs) = Except.error e →
      generate rr pe nm il mo fields ai m ts =
        (Except.error e, [Action.render Template.model])) ∧
    (rr.generate Template.model (mkVars nm il ai ts cols refs) = Except.ok r1 →
      rr.generate Template.model_test (mkVars nm il ai ts cols refs) = Except.error e →
      generate rr pe nm il mo fields ai m ts =
        (Except.error e, [Action.render Template.model, Action.render Template.model_test])) := by
  constructor
  · intro hm
    simp [generate, hres, hm]
  · intro hm ht
    simp [generate, hres, hm, ht]

/-- Witness for C7 with an always-failing renderer and the pipeline enabled. -/
theorem render_failure_blocks_pipeline_witness :
    generate rrFail peOk "movies" false false [("title", "string")] appSaas mapsString "TS" =
      (Except.error (Error.Message "render failed"), [Action.render Template.model]) :=
  (render_failure_blocks_pipeline rrFail peOk "movies" false false [("title", "string")]
    appSaas mapsString "TS" [("title", "string")] [] [] (Error.Message "render failed")
    { message := "x" } (by decide)).1 rfl

end Loco
